import Mathlib

/-!
Verification development for the WeatherPulse repository.

The extraction engine (`app/weather_scraper.py`) operates on the flattened
page text, which we model as `List Char`.  Python `float` arithmetic on the
extracted integer/decimal literals is modelled exactly over `ℚ` (the spec
describes the Unit Converter as an exact derivation and all extracted
literals are decimal strings), Python `int` temperatures at the forecast
endpoint over `ℤ`, and `datetime.now() + timedelta(days=i)` is modelled by an
explicit `today : Nat` parameter with `date = today + i` (the engine never
inspects the date beyond formatting it).  Regular-expression search is
embedded by direct left-to-right scanning functions whose backtracking
behaviour coincides with Python `re` on the concrete patterns of the source
(each pattern is a literal key, a lazy same-line gap `.*?`, a greedy digit
group and a fixed tail, for which greedy/lazy backtracking reduces to the
deterministic scans below).
-/

/-- ASCII lower-casing of one character, as Python `str.lower` acts on the
ASCII characters relevant to the source's keyword lists. -/
def pyLower (c : Char) : Char :=
  if 'A' ≤ c ∧ c ≤ 'Z' then Char.ofNat (c.toNat + 32) else c

/-- ASCII upper-casing of one character (used by the model of `str.title`). -/
def pyUpper (c : Char) : Char :=
  if 'a' ≤ c ∧ c ≤ 'z' then Char.ofNat (c.toNat - 32) else c

/-- Python whitespace (`str.strip` default set and the ASCII part of regex
`\s`): space, tab, newline, carriage return, vertical tab, form feed. -/
def isPySpace (c : Char) : Bool :=
  c = ' ' || c = '\t' || c = '\n' || c = '\r' || c = '\x0b' || c = '\x0c'

/-- Python `str.title` restricted to ASCII: a letter is upper-cased when the
previous character is not a letter, lower-cased otherwise.  The Boolean
argument records whether the previous character was a letter. -/
def pyTitleAux : Bool → List Char → List Char
  | _, [] => []
  | prev, c :: cs =>
      (if c.isAlpha then (if prev then pyLower c else pyUpper c) else c) ::
        pyTitleAux c.isAlpha cs

/-- Python `str.title` on ASCII text. -/
def pyTitle (s : List Char) : List Char := pyTitleAux false s

/-- Python substring containment `needle in hay` on character lists. -/
def containsSub (needle : List Char) : List Char → Bool
  | [] => needle.isEmpty
  | c :: cs => needle.isPrefixOf (c :: cs) || containsSub needle cs

/-- Case-insensitive prefix test: the pattern `k` (written in lower case)
matches a prefix of the text after lower-casing the text, as Python
`re.IGNORECASE` treats the literal parts of the source's patterns. -/
def isPrefixOfCI : List Char → List Char → Bool
  | [], _ => true
  | _ :: _, [] => false
  | k :: ks, c :: cs => (k = pyLower c) && isPrefixOfCI ks cs

/-- Value of a non-empty decimal digit string, as Python `int(...)` parses a
`(\d+)` capture group. -/
def digitsToNat (ds : List Char) : Nat :=
  ds.foldl (fun n c => 10 * n + (c.toNat - 48)) 0

/-- Exact value of a `(\d+(?:\.\d+)?)` capture group, as Python
`float(...)` denotes it (the group is a decimal literal, so its exact value
is rational). -/
def pyFloatQ (s : List Char) : ℚ :=
  let ip := s.takeWhile Char.isDigit
  match s.dropWhile Char.isDigit with
  | '.' :: fp => (digitsToNat ip : ℚ) + (digitsToNat fp : ℚ) / (10 : ℚ) ^ fp.length
  | _ => (digitsToNat ip : ℚ)

/-- Embedding of `re.findall(r'(\d+)°X', text, re.IGNORECASE)[0]` from
`WeatherScraper._extract_current_weather`, for a degree marker with
upper-case form `uc` and lower-case form `lc`: the first (leftmost) maximal
digit run immediately followed by `°` and the marker letter, returned as the
capture group.  Scanning position by position is equivalent to the regex
search because a shortened `\d+` still ends at a digit, never at `°`. -/
def findDegUnit (uc lc : Char) : List Char → Option (List Char)
  | [] => none
  | c :: cs =>
    if c.isDigit then
      match (c :: cs).dropWhile Char.isDigit with
      | m :: u :: _ =>
        if m = '°' && (u = uc || u = lc) then
          some ((c :: cs).takeWhile Char.isDigit)
        else findDegUnit uc lc cs
      | _ => findDegUnit uc lc cs
    else findDegUnit uc lc cs

/-- Embedding of the first match of `(\d+)\s*degrees` (case-insensitive)
from `WeatherScraper._extract_current_weather`: a digit run, optional
whitespace, then the literal `degrees`. -/
def findNumDegrees : List Char → Option (List Char)
  | [] => none
  | c :: cs =>
    if c.isDigit then
      if isPrefixOfCI ("degrees".data)
          (((c :: cs).dropWhile Char.isDigit).dropWhile isPySpace) then
        some ((c :: cs).takeWhile Char.isDigit)
      else findNumDegrees cs
    else findNumDegrees cs

/-- Lazy same-line scan for the first digit run, embedding the tail
`.*?(\d+)` of the patterns `temperature.*?(\d+)` and `uv.*?(\d+)`: `.` does
not cross a newline, and the capture group is the maximal digit run starting
at the first digit reached. -/
def scanDigitsRun : List Char → Option (List Char)
  | [] => none
  | c :: cs =>
    if c = '\n' then none
    else if c.isDigit then some ((c :: cs).takeWhile Char.isDigit)
    else scanDigitsRun cs

/-- Lazy same-line scan for the tail `.*?(\d+)%` of the humidity pattern:
the first digit run immediately followed by `%`. -/
def scanNumPct : List Char → Option (List Char)
  | [] => none
  | c :: cs =>
    if c = '\n' then none
    else if c.isDigit then
      match (c :: cs).dropWhile Char.isDigit with
      | '%' :: _ => some ((c :: cs).takeWhile Char.isDigit)
      | _ => scanNumPct cs
    else scanNumPct cs

/-- Does one of the unit tokens follow, after greedy `\s*` whitespace
(which, unlike `.`, may cross newlines)?  Shorter whitespace runs cannot
match because every unit token starts with a letter. -/
def unitFollows (units : List (List Char)) (rest : List Char) : Bool :=
  units.any (fun u => isPrefixOfCI u (rest.dropWhile isPySpace))

/-- Lazy same-line scan for the tail `.*?(\d+(?:\.\d+)?)\s*(unit|...)` of
the pressure / wind-speed / visibility patterns.  The optional fractional
part is greedy, and on failure the regex backtracks to the integer-only
group before moving the lazy gap forward, exactly as mirrored here. -/
def scanDecUnit (units : List (List Char)) : List Char → Option (List Char)
  | [] => none
  | c :: cs =>
    if c = '\n' then none
    else if c.isDigit then
      let ip := (c :: cs).takeWhile Char.isDigit
      match (c :: cs).dropWhile Char.isDigit with
      | '.' :: r2 =>
        if (r2.headD ' ').isDigit then
          if unitFollows units (r2.dropWhile Char.isDigit) then
            some (ip ++ '.' :: r2.takeWhile Char.isDigit)
          else if unitFollows units ('.' :: r2) then some ip
          else scanDecUnit units cs
        else if unitFollows units ('.' :: r2) then some ip
        else scanDecUnit units cs
      | rest =>
        if unitFollows units rest then some ip else scanDecUnit units cs
    else scanDecUnit units cs

/-- Embedding of `re.search(key + gap-and-payload, text, re.IGNORECASE)`:
the leftmost occurrence of the literal `key` from which the continuation
scan succeeds wins; on failure the search resumes at the next character,
i.e. at the next occurrence of `key`. -/
def searchAfterKey (key : List Char) (scan : List Char → Option (List Char)) :
    List Char → Option (List Char)
  | [] => none
  | c :: cs =>
    if isPrefixOfCI key (c :: cs) then
      match scan (List.drop key.length (c :: cs)) with
      | some g => some g
      | none => searchAfterKey key scan cs
    else searchAfterKey key scan cs

/-- First successful temperature pattern of
`WeatherScraper._extract_current_weather`, in the source's priority order
`(\d+)°C`, `(\d+)°F`, `temperature.*?(\d+)`, `(\d+)\s*degrees` (all
case-insensitive), returning the capture group of `matches[0]`. -/
def firstTempGroup (text : List Char) : Option (List Char) :=
  match findDegUnit 'C' 'c' text with
  | some g => some g
  | none =>
    match findDegUnit 'F' 'f' text with
    | some g => some g
    | none =>
      match searchAfterKey ("temperature".data) scanDigitsRun text with
      | some g => some g
      | none => findNumDegrees text

/-- Embedding of the source's Celsius test
`'°C' in text_content or 'celsius' in text_content.lower()`. -/
def isCelsiusText (text : List Char) : Bool :=
  containsSub ("°C".data) text || containsSub ("celsius".data) (text.map pyLower)

/-- Temperature part of `WeatherScraper._extract_current_weather`: the pair
`(temp_celsius, temp_fahrenheit)`.  On a match the detected value is
`int(matches[0])`; the Celsius test decides the conversion direction; with
no match the fixed default `(25.0, 77.0)` applies. -/
def extractTemperature (text : List Char) : ℚ × ℚ :=
  match firstTempGroup text with
  | some g =>
    let v : ℚ := (digitsToNat g : ℚ)
    if isCelsiusText text then (v, v * 9 / 5 + 32)
    else ((v - 32) * 5 / 9, v)
  | none => (25, 77)

/-- Keyword list of `WeatherScraper._extract_condition`, in source order. -/
def conditionKeywords : List (List Char) :=
  ["sunny".data, "cloudy".data, "rainy".data, "stormy".data, "clear".data,
   "overcast".data, "partly cloudy".data, "mostly cloudy".data]

/-- Embedding of `WeatherScraper._extract_condition`: the first keyword in
list order contained in the lower-cased text, title-cased; the literal
default "Partly Cloudy" when none occurs. -/
def extract_condition (text : List Char) : List Char :=
  match conditionKeywords.find? (fun k => containsSub k (text.map pyLower)) with
  | some k => pyTitle k
  | none => "Partly Cloudy".data

/-- Embedding of `WeatherScraper._extract_humidity`:
`re.search(r'humidity.*?(\d+)%', text, re.IGNORECASE)` then `int(group(1))`. -/
def extract_humidity (text : List Char) : Option Nat :=
  match searchAfterKey ("humidity".data) scanNumPct text with
  | some g => some (digitsToNat g)
  | none => none

/-- Embedding of `WeatherScraper._extract_pressure`:
`re.search(r'pressure.*?(\d+(?:\.\d+)?)\s*(?:mb|hpa)', text, re.IGNORECASE)`
then `float(group(1))`. -/
def extract_pressure (text : List Char) : Option ℚ :=
  match searchAfterKey ("pressure".data) (scanDecUnit ["mb".data, "hpa".data]) text with
  | some g => some (pyFloatQ g)
  | none => none

/-- Embedding of `WeatherScraper._extract_wind_speed`:
`re.search(r'wind.*?(\d+(?:\.\d+)?)\s*(?:km/h|mph)', text, re.IGNORECASE)`
then `float(group(1))`. -/
def extract_wind_speed (text : List Char) : Option ℚ :=
  match searchAfterKey ("wind".data) (scanDecUnit ["km/h".data, "mph".data]) text with
  | some g => some (pyFloatQ g)
  | none => none

/-- Direction token list of `WeatherScraper._extract_wind_direction`, in
source order. -/
def windDirections : List (List Char) :=
  ["N".data, "NE".data, "E".data, "SE".data, "S".data, "SW".data, "W".data,
   "NW".data, "North".data, "South".data, "East".data, "West".data]

/-- Case-sensitive token test of `WeatherScraper._extract_wind_direction`:
`f" {d} " in text or f"{d}E" in text or f"{d}W" in text`. -/
def dirTokenOccurs (d : List Char) (text : List Char) : Bool :=
  containsSub (' ' :: d ++ [' ']) text || containsSub (d ++ ['E']) text ||
    containsSub (d ++ ['W']) text

/-- Embedding of `WeatherScraper._extract_wind_direction`: the first
direction in list order whose token test succeeds, else `None`. -/
def extract_wind_direction (text : List Char) : Option (List Char) :=
  windDirections.find? (fun d => dirTokenOccurs d text)

/-- Embedding of `WeatherScraper._extract_visibility`:
`re.search(r'visibility.*?(\d+(?:\.\d+)?)\s*km', text, re.IGNORECASE)` then
`float(group(1))`. -/
def extract_visibility (text : List Char) : Option ℚ :=
  match searchAfterKey ("visibility".data) (scanDecUnit ["km".data]) text with
  | some g => some (pyFloatQ g)
  | none => none

/-- Embedding of `WeatherScraper._extract_uv_index`:
`re.search(r'uv.*?(\d+)', text, re.IGNORECASE)` then `int(group(1))`. -/
def extract_uv_index (text : List Char) : Option Nat :=
  match searchAfterKey ("uv".data) scanDigitsRun text with
  | some g => some (digitsToNat g)
  | none => none

/-- Quality keyword list of `WeatherScraper._extract_air_quality`, in
source order. -/
def aqiQualities : List (List Char) :=
  ["good".data, "moderate".data, "unhealthy".data, "hazardous".data,
   "excellent".data]

/-- Embedding of `WeatherScraper._extract_air_quality`: the first quality
keyword contained in the lower-cased text, title-cased, else `None`. -/
def extract_air_quality (text : List Char) : Option (List Char) :=
  (aqiQualities.find? (fun q => containsSub q (text.map pyLower))).map pyTitle

/-- The `CurrentWeather` pydantic model of `app/models.py`, with floats as
exact rationals and strings as character lists. -/
structure CurrentWeather where
  temperature : ℚ
  temperature_fahrenheit : ℚ
  condition : List Char
  humidity : Option Nat
  pressure : Option ℚ
  wind_speed : Option ℚ
  wind_direction : Option (List Char)
  visibility : Option ℚ
  uv_index : Option Nat
  air_quality : Option (List Char)
deriving DecidableEq

/-- Embedding of `WeatherScraper._extract_current_weather` (the assembler).
Every branch of the Python body is total, so the `except` path is dead and
the record is always produced. -/
def extract_current_weather (text : List Char) : CurrentWeather :=
  { temperature := (extractTemperature text).1
    temperature_fahrenheit := (extractTemperature text).2
    condition := extract_condition text
    humidity := extract_humidity text
    pressure := extract_pressure text
    wind_speed := extract_wind_speed text
    wind_direction := extract_wind_direction text
    visibility := extract_visibility text
    uv_index := extract_uv_index text
    air_quality := extract_air_quality text }

/-- The `DailyForecast` pydantic model of `app/models.py`; `date` is the
abstract day number `today + i`. -/
structure DailyForecast where
  date : Nat
  high_temp : ℚ
  low_temp : ℚ
  condition : List Char
  precipitation_chance : Option Nat
deriving DecidableEq

/-- Embedding of `WeatherScraper._extract_forecast_data` (the record-level
forecast synthesizer): always 7 entries with `high_temp = 28.0 + i`,
`low_temp = 22.0 + i`, fixed condition and a fixed 30 percent
precipitation chance. -/
def extract_forecast_data (today : Nat) : List DailyForecast :=
  (List.range 7).map (fun i =>
    { date := today + i
      high_temp := 28 + (i : ℚ)
      low_temp := 22 + (i : ℚ)
      condition := "Partly Cloudy".data
      precipitation_chance := some 30 })

/-- One entry of the forecast-endpoint response dictionary built by
`WeatherScraper.scrape_forecast_data`; temperatures are Python ints and
`precipitation` is the formatted string `f"{30 + i*5}%"`. -/
structure ForecastEntry where
  date : Nat
  high_temp : ℤ
  low_temp : ℤ
  condition : List Char
  precipitation : List Char
deriving DecidableEq

/-- The forecast-endpoint response dictionary
`{"city": ..., "forecast_days": ..., "forecast": [...]}`. -/
structure ForecastData where
  city : List Char
  forecast_days : Nat
  forecast : List ForecastEntry
deriving DecidableEq

/-- Embedding of `WeatherScraper.scrape_forecast_data` (the endpoint-level
forecast synthesizer) for a requested day count `days` (`range(days)`
enumerates the day indices of a non-negative count). -/
def scrape_forecast_data (today : Nat) (city : List Char) (days : Nat) :
    ForecastData :=
  { city := city
    forecast_days := days
    forecast := (List.range days).map (fun i =>
      { date := today + i
        high_temp := 28 + ((i % 3 : Nat) : ℤ)
        low_temp := 22 + ((i % 2 : Nat) : ℤ)
        condition := "Partly Cloudy".data
        precipitation := (Nat.repr (30 + i * 5)).data ++ ['%'] }) }

/-- The `WeatherResponse` pydantic model of `app/models.py` (the
`last_updated` timestamp, a wall-clock value the engine never inspects, is
omitted). -/
structure WeatherResponse where
  city : List Char
  state : Option (List Char)
  country : List Char
  current_weather : CurrentWeather
  forecast : Option (List DailyForecast)
  data_source : List Char
deriving DecidableEq

/-- Embedding of `WeatherScraper._parse_bing_weather`: the assembler always
yields a (truthy) record, so the `if not current_weather` guard never
fires and the response is always built; `country or "India"` substitutes
the default exactly when the argument is `None` or the empty string. -/
def parse_bing_weather (text : List Char) (today : Nat) (city : List Char)
    (state country : Option (List Char)) : WeatherResponse :=
  { city := city
    state := state
    country :=
      match country with
      | none => "India".data
      | some c => if c = [] then "India".data else c
    current_weather := extract_current_weather text
    forecast := some (extract_forecast_data today)
    data_source := "Bing Weather".data }

/-- Character class `[a-zA-Z\s\-'\.]` of the city-name pattern shared by
`app/utils/helpers.py` and `app/utils/validators.py` (regex `\s` admits any
whitespace character, not only the plain space). -/
def allowedCityChar (c : Char) : Bool :=
  c.isAlpha || isPySpace c || c = '-' || c = Char.ofNat 39 || c = '.'

/-- Python `str.strip()` with the default whitespace set. -/
def pyStrip (s : List Char) : List Char :=
  ((s.dropWhile isPySpace).reverse.dropWhile isPySpace).reverse

/-- Embedding of `validate_city_name`, identical in
`app/utils/helpers.py` and `app/utils/validators.py` (class
`CityValidator`): reject when the input is empty or its stripped form is
shorter than 2 characters, then apply
`re.match(r"^[a-zA-Z\s\-'\.]+$", city.strip())` — which, on a stripped
string (no trailing newline), holds exactly when the string is non-empty
and every character lies in the class. -/
def validate_city_name (city : List Char) : Bool :=
  if city.isEmpty = true ∨ (pyStrip city).length < 2 then false
  else !(pyStrip city).isEmpty && (pyStrip city).all allowedCityChar

/-! ## Helper lemmas -/

theorem containsSub_iff {n l : List Char} : containsSub n l = true ↔ n <:+: l := by
  induction l with
  | nil =>
    simp [containsSub, List.isEmpty_iff, List.infix_nil]
  | cons c cs ih =>
    simp [containsSub, List.infix_cons_iff, ih, List.isPrefixOf_iff_prefix,
      or_comm]

theorem containsSub_mono {m n l : List Char} (h : containsSub n l = true)
    (hmn : containsSub m n = true) : containsSub m l = true := by
  rw [containsSub_iff] at *
  exact hmn.trans h

theorem containsSub_of_isPrefixOf_dropWhile {needle l : List Char}
    (p : Char → Bool) (h : needle.isPrefixOf (l.dropWhile p) = true) :
    containsSub needle l = true := by
  rw [containsSub_iff]
  rw [List.isPrefixOf_iff_prefix] at h
  exact h.isInfix.trans (List.dropWhile_suffix p).isInfix

theorem find?_cons_pos (p : List Char → Bool) (a : List Char) (l : List (List Char))
    (h : p a = true) : List.find? p (a :: l) = some a :=
  List.find?_cons_of_pos l h

theorem find?_cons_neg (p : List Char → Bool) (a : List Char) (l : List (List Char))
    (h : p a = false) : List.find? p (a :: l) = List.find? p l :=
  List.find?_cons_of_neg l (by simp [h])

theorem containsSub_cloudy_of_pc {l : List Char}
    (h : containsSub ("partly cloudy".data) l = true) :
    containsSub ("cloudy".data) l = true :=
  containsSub_mono h (by decide)

theorem containsSub_cloudy_of_mc {l : List Char}
    (h : containsSub ("mostly cloudy".data) l = true) :
    containsSub ("cloudy".data) l = true :=
  containsSub_mono h (by decide)

/-- The condition matcher returns "Sunny" whenever "sunny" occurs in the
lower-cased text (it is the first keyword in list order). -/
theorem extract_condition_sunny {text : List Char}
    (h : containsSub ("sunny".data) (text.map pyLower) = true) :
    extract_condition text = "Sunny".data := by
  unfold extract_condition conditionKeywords
  rw [find?_cons_pos (fun kw => containsSub kw (text.map pyLower)) _ _ h]
  decide

/-- The condition matcher returns the default when no keyword occurs. -/
theorem extract_condition_default {text : List Char}
    (h : ∀ k ∈ conditionKeywords, containsSub k (text.map pyLower) = false) :
    extract_condition text = "Partly Cloudy".data := by
  unfold extract_condition
  rw [List.find?_eq_none.mpr (fun k hk => by simp [h k hk])]

/-- The condition matcher yields the default "Partly Cloudy" only in the
no-match case: the list entry "partly cloudy" is unreachable (any text
containing it also contains "cloudy", listed earlier), so a "Partly
Cloudy" result implies that no keyword occurs at all. -/
theorem extract_condition_partly_cloudy {text : List Char}
    (heq : extract_condition text = "Partly Cloudy".data) :
    ∀ k ∈ conditionKeywords, containsSub k (text.map pyLower) = false := by
  rcases hfind : conditionKeywords.find?
      (fun kw => containsSub kw (text.map pyLower)) with _ | k
  · exact fun k hk => by simpa using List.find?_eq_none.mp hfind k hk
  · exfalso
    unfold extract_condition at heq
    rw [hfind] at heq
    have hmem := List.mem_of_find?_eq_some hfind
    have hp := List.find?_some hfind
    have hk : k = "partly cloudy".data := by
      simp only [conditionKeywords, List.mem_cons, List.not_mem_nil,
        or_false] at hmem
      rcases hmem with rfl | rfl | rfl | rfl | rfl | rfl | rfl | rfl <;>
        first
        | rfl
        | exact absurd heq (by decide)
    subst hk
    have hc : containsSub ("cloudy".data) (text.map pyLower) = true :=
      containsSub_cloudy_of_pc (by simpa using hp)
    by_cases hs : containsSub ("sunny".data) (text.map pyLower) = true
    · rw [show conditionKeywords.find?
          (fun kw => containsSub kw (text.map pyLower)) =
          some ("sunny".data) from
          find?_cons_pos (fun kw => containsSub kw (text.map pyLower)) _ _ hs] at hfind
      exact absurd (Option.some.inj hfind) (by decide)
    · unfold conditionKeywords at hfind
      rw [find?_cons_neg (fun kw => containsSub kw (text.map pyLower)) _ _
          (by simpa using hs),
        find?_cons_pos (fun kw => containsSub kw (text.map pyLower)) _ _ hc] at hfind
      exact absurd (Option.some.inj hfind) (by decide)

/-! ## Claim theorems -/

/-- C3 (confirmed): the condition matcher returns the title-cased first
keyword of the fixed priority list that occurs case-insensitively in the
text — list order wins, so text containing both "sunny" and "cloudy"
yields "Sunny" regardless of text position; with no keyword present it
returns "Partly Cloudy". -/
theorem condition_priority (text : List Char) :
    (containsSub ("sunny".data) (text.map pyLower) = true →
       extract_condition text = "Sunny".data)
  ∧ ((∀ k ∈ conditionKeywords, containsSub k (text.map pyLower) = false) →
       extract_condition text = "Partly Cloudy".data)
  ∧ (∀ k, conditionKeywords.find?
        (fun kw => containsSub kw (text.map pyLower)) = some k →
       extract_condition text = pyTitle k) := by
  refine ⟨fun h => extract_condition_sunny h, fun h => extract_condition_default h,
    fun k hk => ?_⟩
  unfold extract_condition
  rw [hk]

/-- Witness for C3: a text containing "cloudy" first and "sunny" later
still yields "Sunny". -/
theorem condition_priority_w :
    extract_condition ("CLOUDY then sunny".data) = "Sunny".data :=
  (condition_priority ("CLOUDY then sunny".data)).1 (by decide)

/-- C9 (counterexample): the claim says every text containing
"partly cloudy" yields "Cloudy", but a text that also contains "sunny"
yields "Sunny". -/
theorem condition_shadowing_cex :
    containsSub ("partly cloudy".data)
        (("sunny partly cloudy".data).map pyLower) = true ∧
    extract_condition ("sunny partly cloudy".data) = "Sunny".data ∧
    ("Sunny".data : List Char) ≠ "Cloudy".data := by
  exact ⟨by decide, extract_condition_sunny (by decide), by decide⟩

/-- C9 (amended): because "cloudy" precedes "partly cloudy" and
"mostly cloudy" in the list and matching is substring containment, any
text containing "partly cloudy" or "mostly cloudy" but not an
earlier-listed keyword ("sunny") yields "Cloudy"; the two compound
entries are unreachable as match results — the matcher never returns
"Mostly Cloudy", and returns "Partly Cloudy" only as the no-match
default. -/
theorem condition_shadowing_amended (text : List Char) :
    ((containsSub ("partly cloudy".data) (text.map pyLower) = true ∨
      containsSub ("mostly cloudy".data) (text.map pyLower) = true) →
     containsSub ("sunny".data) (text.map pyLower) = false →
     extract_condition text = "Cloudy".data)
  ∧ extract_condition text ≠ "Mostly Cloudy".data
  ∧ (extract_condition text = "Partly Cloudy".data →
       ∀ k ∈ conditionKeywords, containsSub k (text.map pyLower) = false) := by
  refine ⟨fun hpm hs => ?_, ?_, fun heq => extract_condition_partly_cloudy heq⟩
  · have hc : containsSub ("cloudy".data) (text.map pyLower) = true := by
      rcases hpm with h | h
      · exact containsSub_cloudy_of_pc h
      · exact containsSub_cloudy_of_mc h
    unfold extract_condition conditionKeywords
    rw [find?_cons_neg (fun kw => containsSub kw (text.map pyLower)) _ _ hs,
      find?_cons_pos (fun kw => containsSub kw (text.map pyLower)) _ _ hc]
    decide
  · intro heq
    unfold extract_condition at heq
    rcases hfind : conditionKeywords.find?
        (fun kw => containsSub kw (text.map pyLower)) with _ | k
    · rw [hfind] at heq
      exact absurd heq (by decide)
    · rw [hfind] at heq
      have hmem := List.mem_of_find?_eq_some hfind
      have hp := List.find?_some hfind
      have hk : k = "mostly cloudy".data := by
        simp only [conditionKeywords, List.mem_cons, List.not_mem_nil,
          or_false] at hmem
        rcases hmem with rfl | rfl | rfl | rfl | rfl | rfl | rfl | rfl <;>
          first
          | rfl
          | exact absurd heq (by decide)
      subst hk
      have hc : containsSub ("cloudy".data) (text.map pyLower) = true :=
        containsSub_cloudy_of_mc (by simpa using hp)
      by_cases hs : containsSub ("sunny".data) (text.map pyLower) = true
      · rw [show conditionKeywords.find?
            (fun kw => containsSub kw (text.map pyLower)) =
            some ("sunny".data) from
            find?_cons_pos (fun kw => containsSub kw (text.map pyLower)) _ _ hs] at hfind
        exact absurd (Option.some.inj hfind) (by decide)
      · unfold conditionKeywords at hfind
        rw [find?_cons_neg (fun kw => containsSub kw (text.map pyLower)) _ _
            (by simpa using hs),
          find?_cons_pos (fun kw => containsSub kw (text.map pyLower)) _ _ hc] at hfind
        exact absurd (Option.some.inj hfind) (by decide)

/-- Witness for C9 (amended): "it is partly cloudy" (no "sunny") yields
"Cloudy". -/
theorem condition_shadowing_amended_w :
    extract_condition ("it is partly cloudy".data) = "Cloudy".data :=
  (condition_shadowing_amended ("it is partly cloudy".data)).1
    (Or.inl (by decide)) (by decide)

/-- C2 (counterexample): the text "sunny" matches no temperature pattern,
so the defaults 25.0 / 77.0 apply, but the assembled condition is "Sunny",
not the claimed "Partly Cloudy". -/
theorem assembler_default_cex :
    firstTempGroup ("sunny".data) = none ∧
    (extract_current_weather ("sunny".data)).temperature = 25 ∧
    (extract_current_weather ("sunny".data)).temperature_fahrenheit = 77 ∧
    (extract_current_weather ("sunny".data)).condition = "Sunny".data ∧
    ("Sunny".data : List Char) ≠ "Partly Cloudy".data := by
  refine ⟨by decide, ?_, ?_, by decide, by decide⟩ <;>
    simp [extract_current_weather, extractTemperature,
      show firstTempGroup ("sunny".data) = none from by decide]

/-- C2 (amended): for every text in which no temperature pattern matches,
the assembled record has `temperature_c = 25.0` and `temperature_f = 77.0`;
its condition is "Partly Cloudy" exactly when additionally no condition
keyword occurs in the text (the condition matcher runs independently of
the temperature default, and the default string can arise from no keyword
match because the "partly cloudy" list entry is shadowed by "cloudy"). -/
theorem assembler_default_amended (text : List Char)
    (h : firstTempGroup text = none) :
    (extract_current_weather text).temperature = 25 ∧
    (extract_current_weather text).temperature_fahrenheit = 77 ∧
    ((extract_current_weather text).condition = "Partly Cloudy".data ↔
      ∀ k ∈ conditionKeywords, containsSub k (text.map pyLower) = false) := by
  refine ⟨?_, ?_,
    ⟨fun heq => extract_condition_partly_cloudy heq,
     fun hk => extract_condition_default hk⟩⟩ <;>
    simp [extract_current_weather, extractTemperature, h]

/-- Witness for C2 (amended): the keyword-free text "xyz" gets the full
default record, and conversely its default condition certifies that no
keyword occurs. -/
theorem assembler_default_amended_w :
    (extract_current_weather ("xyz".data)).temperature = 25 ∧
    (extract_current_weather ("xyz".data)).temperature_fahrenheit = 77 ∧
    (extract_current_weather ("xyz".data)).condition = "Partly Cloudy".data ∧
    (∀ k ∈ conditionKeywords,
      containsSub k (("xyz".data).map pyLower) = false) := by
  have h := assembler_default_amended ("xyz".data) (by decide)
  have hc := h.2.2.mpr (by decide)
  exact ⟨h.1, h.2.1, hc, h.2.2.mp hc⟩

theorem dropWhile_digits_append {l1 l2 : List Char}
    (h : l1.all Char.isDigit = true) :
    (l1 ++ l2).dropWhile Char.isDigit = l2.dropWhile Char.isDigit := by
  induction l1 with
  | nil => simp
  | cons a l ih =>
    simp only [List.all_cons, Bool.and_eq_true] at h
    simp [List.dropWhile_cons, h.1, ih h.2]

theorem findDegUnit_cons_isSome (uc lc c : Char) {cs : List Char}
    (h : (findDegUnit uc lc cs).isSome = true) :
    (findDegUnit uc lc (c :: cs)).isSome = true := by
  unfold findDegUnit
  split
  · split
    · split
      · simp
      · exact h
    · exact h
  · exact h

theorem findDegUnit_append_isSome (uc lc : Char) (run post : List Char)
    (hne : run ≠ []) (hall : run.all Char.isDigit = true) :
    (findDegUnit uc lc (run ++ '°' :: uc :: post)).isSome = true := by
  rcases run with _ | ⟨d, ds⟩
  · exact absurd rfl hne
  · have hd : d.isDigit = true := by
      simp only [List.all_cons, Bool.and_eq_true] at hall
      exact hall.1
    have hdrop : (((d :: ds) ++ '°' :: uc :: post).dropWhile Char.isDigit) =
        '°' :: uc :: post := by
      rw [dropWhile_digits_append hall, List.dropWhile_cons]
      simp
    simp only [List.cons_append] at hdrop ⊢
    unfold findDegUnit
    rw [hd, if_pos rfl, hdrop]
    simp

/-- C1 (counterexample): two behaviours diverge from the claim.  In
"5°c 7°C" the bare integer 7 is immediately followed by the Celsius
marker °C, yet the matcher (case-insensitive, first match wins) returns 5.
In "x°C 70 degrees" no Celsius pattern matches and the word "celsius" is
absent, so the claim demands Fahrenheit treatment (temperature_f = 70),
yet the code keys on the substring °C in the raw text and returns
temperature_c = 70, temperature_f = 158. -/
theorem temperature_extraction_cex :
    (firstTempGroup ("5°c 7°C".data) = some ("5".data) ∧
     extractTemperature ("5°c 7°C".data) = (5, 41) ∧
     ((5 : ℚ), (41 : ℚ)).1 ≠ 7) ∧
    (findDegUnit 'C' 'c' ("x°C 70 degrees".data) = none ∧
     containsSub ("celsius".data) (("x°C 70 degrees".data).map pyLower) = false ∧
     extractTemperature ("x°C 70 degrees".data) = (70, 158) ∧
     ((70 : ℚ), (158 : ℚ)).2 ≠ 70) := by
  have h1 : firstTempGroup ("5°c 7°C".data) = some ("5".data) := by decide
  have h2 : firstTempGroup ("x°C 70 degrees".data) = some ("70".data) := by decide
  refine ⟨⟨h1, ?_, by decide⟩, ⟨by decide, by decide, ?_, by decide⟩⟩
  · rw [show extractTemperature ("5°c 7°C".data) =
        ((digitsToNat ("5".data) : ℚ),
         (digitsToNat ("5".data) : ℚ) * 9 / 5 + 32) by
      simp only [extractTemperature, h1,
        show isCelsiusText ("5°c 7°C".data) = true from by decide, if_true]]
    norm_num [show digitsToNat ("5".data) = 5 from by decide]
  · rw [show extractTemperature ("x°C 70 degrees".data) =
        ((digitsToNat ("70".data) : ℚ),
         (digitsToNat ("70".data) : ℚ) * 9 / 5 + 32) by
      simp only [extractTemperature, h2,
        show isCelsiusText ("x°C 70 degrees".data) = true from by decide, if_true]]
    norm_num [show digitsToNat ("70".data) = 70 from by decide]

/-- C1 (amended): whenever some temperature pattern matches with first
capture group `g`, the extraction returns `int(g)` with the exact
conversion `F = C*9/5 + 32` (resp. `C = (F-32)*5/9`), and the value is
treated as Celsius exactly when the literal substring "°C" occurs anywhere
in the raw text or "celsius" occurs in the lower-cased text — not
according to which pattern matched.  Moreover any text containing a bare
integer immediately followed by the (upper-case) Celsius marker does make
the Celsius pattern match and is Celsius-treated; the extracted integer is
the first case-insensitive match, which may differ from the integer
adjacent to the marker. -/
theorem temperature_extraction_amended (text : List Char) :
    (∀ g, firstTempGroup text = some g →
        extractTemperature text =
          if isCelsiusText text then
            ((digitsToNat g : ℚ), (digitsToNat g : ℚ) * 9 / 5 + 32)
          else (((digitsToNat g : ℚ) - 32) * 5 / 9, (digitsToNat g : ℚ)))
  ∧ (∀ pre run post, text = pre ++ run ++ '°' :: 'C' :: post → run ≠ [] →
        run.all Char.isDigit = true →
        (findDegUnit 'C' 'c' text).isSome = true ∧
          isCelsiusText text = true) := by
  constructor
  · intro g hg
    simp only [extractTemperature, hg]
  · intro pre run post heq hne hall
    subst heq
    constructor
    · induction pre with
      | nil => simpa using findDegUnit_append_isSome 'C' 'c' run post hne hall
      | cons a pre ih => simpa using findDegUnit_cons_isSome 'C' 'c' a (by simpa using ih)
    · have hinf : ("°C".data : List Char) <:+: pre ++ run ++ '°' :: 'C' :: post :=
        ⟨pre ++ run, post, by simp⟩
      have hsub : containsSub ("°C".data) (pre ++ run ++ '°' :: 'C' :: post) = true :=
        containsSub_iff.mpr hinf
      simp only [isCelsiusText, Bool.or_eq_true]
      left
      simpa using hsub

/-- Witness for C1 (amended): "25°C" matches the Celsius pattern with
group "25" and is Celsius-treated. -/
theorem temperature_extraction_amended_w :
    extractTemperature ("25°C".data) =
      ((digitsToNat ("25".data) : ℚ), (digitsToNat ("25".data) : ℚ) * 9 / 5 + 32) ∧
    (findDegUnit 'C' 'c' ("25°C".data)).isSome = true ∧
    isCelsiusText ("25°C".data) = true := by
  have h := temperature_extraction_amended ("25°C".data)
  have h1 := h.1 ("25".data) (by decide)
  have h2 := h.2 [] ("25".data) [] (by decide) (by decide) (by decide)
  rw [h1, if_pos (show isCelsiusText ("25°C".data) = true from by decide)]
  exact ⟨rfl, h2.1, h2.2⟩

/-- C7 (confirmed): each of the humidity, pressure, wind-speed,
wind-direction, visibility, UV-index and air-quality matchers returns
`None` — not zero and not an exception — whenever its pattern does not
match.  Non-raising holds by construction: every matcher is embedded as a
total function, mirroring the Python bodies, whose only operations
(`re.search`, `int`/`float` on an all-digit group, substring tests) cannot
raise. -/
theorem matchers_absent_on_no_match (text : List Char) :
    (searchAfterKey ("humidity".data) scanNumPct text = none →
       extract_humidity text = none)
  ∧ (searchAfterKey ("pressure".data)
        (scanDecUnit ["mb".data, "hpa".data]) text = none →
       extract_pressure text = none)
  ∧ (searchAfterKey ("wind".data)
        (scanDecUnit ["km/h".data, "mph".data]) text = none →
       extract_wind_speed text = none)
  ∧ ((∀ d ∈ windDirections, dirTokenOccurs d text = false) →
       extract_wind_direction text = none)
  ∧ (searchAfterKey ("visibility".data) (scanDecUnit ["km".data]) text = none →
       extract_visibility text = none)
  ∧ (searchAfterKey ("uv".data) scanDigitsRun text = none →
       extract_uv_index text = none)
  ∧ ((∀ q ∈ aqiQualities, containsSub q (text.map pyLower) = false) →
       extract_air_quality text = none) := by
  refine ⟨fun h => ?_, fun h => ?_, fun h => ?_, fun h => ?_, fun h => ?_,
    fun h => ?_, fun h => ?_⟩
  · simp [extract_humidity, h]
  · simp [extract_pressure, h]
  · simp [extract_wind_speed, h]
  · simp only [extract_wind_direction]
    exact List.find?_eq_none.mpr (fun d hd => by simp [h d hd])
  · simp [extract_visibility, h]
  · simp [extract_uv_index, h]
  · have hn : List.find? (fun q => containsSub q (List.map pyLower text))
        aqiQualities = none :=
      List.find?_eq_none.mpr (fun q hq => by simp [h q hq])
    simp [extract_air_quality, hn]

/-- Witness for C7: on the text "zz" every pattern fails and every matcher
returns `None`. -/
theorem matchers_absent_on_no_match_w :
    extract_humidity ("zz".data) = none ∧
    extract_pressure ("zz".data) = none ∧
    extract_wind_speed ("zz".data) = none ∧
    extract_wind_direction ("zz".data) = none ∧
    extract_visibility ("zz".data) = none ∧
    extract_uv_index ("zz".data) = none ∧
    extract_air_quality ("zz".data) = none := by
  have h := matchers_absent_on_no_match ("zz".data)
  exact ⟨h.1 (by decide), h.2.1 (by decide), h.2.2.1 (by decide),
    h.2.2.2.1 (by decide), h.2.2.2.2.1 (by decide), h.2.2.2.2.2.1 (by decide),
    h.2.2.2.2.2.2 (by decide)⟩

theorem range_map_getElem? {α : Type} (f : Nat → α) (n i : Nat) :
    ((List.range n).map f)[i]? = if i < n then some (f i) else none := by
  by_cases h : i < n
  · rw [if_pos h]
    rw [List.getElem?_map, List.getElem?_range h]
    rfl
  · rw [if_neg h]
    rw [List.getElem?_map, List.getElem?_eq_none (by simpa using Nat.le_of_not_lt h)]
    rfl

theorem scrape_forecast_entry {today : Nat} {city : List Char} {days i : Nat}
    {e : ForecastEntry}
    (h : (scrape_forecast_data today city days).forecast[i]? = some e) :
    i < days ∧
      e = { date := today + i
            high_temp := 28 + ((i % 3 : Nat) : ℤ)
            low_temp := 22 + ((i % 2 : Nat) : ℤ)
            condition := "Partly Cloudy".data
            precipitation := (Nat.repr (30 + i * 5)).data ++ ['%'] } := by
  simp only [scrape_forecast_data, range_map_getElem?] at h
  by_cases hi : i < days
  · rw [if_pos hi] at h
    exact ⟨hi, (Option.some.inj h).symm⟩
  · rw [if_neg hi] at h
    exact absurd h (by simp)

theorem forecast_record_entry {today i : Nat} {d : DailyForecast}
    (h : (extract_forecast_data today)[i]? = some d) :
    i < 7 ∧
      d = { date := today + i
            high_temp := 28 + (i : ℚ)
            low_temp := 22 + (i : ℚ)
            condition := "Partly Cloudy".data
            precipitation_chance := some 30 } := by
  simp only [extract_forecast_data, range_map_getElem?] at h
  by_cases hi : i < 7
  · rw [if_pos hi] at h
    exact ⟨hi, (Option.some.inj h).symm⟩
  · rw [if_neg hi] at h
    exact absurd h (by simp)

/-- C4 (counterexample): the record-level synthesizer does not use the
claimed formula `high = 28 + (i mod 3)`: at day index 3 it produces
`high_temp = 31`, while `28 + (3 mod 3) = 28`. -/
theorem forecast_formulas_cex :
    ((extract_forecast_data 0)[3]?).map DailyForecast.high_temp = some 31 ∧
    (31 : ℚ) ≠ 28 + ((3 % 3 : Nat) : ℚ) := by
  constructor
  · rw [show (extract_forecast_data 0)[3]? = some
        { date := 0 + 3, high_temp := 28 + ((3 : Nat) : ℚ),
          low_temp := 22 + ((3 : Nat) : ℚ), condition := "Partly Cloudy".data,
          precipitation_chance := some 30 } from by
      simp [extract_forecast_data, range_map_getElem?]]
    simp only [Option.map_some]
    norm_num
  · norm_num

/-- C4 (amended): the two forecast synthesis call sites use distinct
formulas.  The record-level site always produces 7 entries with
`date = today + i`, `high = 28 + i`, `low = 22 + i` (no modulus), constant
condition "Partly Cloudy" and a fixed 30 percent precipitation chance; the
endpoint site produces, for `i` in `[0, N)`, `date = today + i`,
`high = 28 + (i mod 3)`, `low = 22 + (i mod 2)`, constant condition and
the formatted percentage `(30 + 5*i)%`. -/
theorem forecast_formulas_amended (today : Nat) (city : List Char)
    (days i : Nat) :
    (i < 7 → (extract_forecast_data today)[i]? = some
        { date := today + i
          high_temp := 28 + (i : ℚ)
          low_temp := 22 + (i : ℚ)
          condition := "Partly Cloudy".data
          precipitation_chance := some 30 })
  ∧ (i < days → (scrape_forecast_data today city days).forecast[i]? = some
        { date := today + i
          high_temp := 28 + ((i % 3 : Nat) : ℤ)
          low_temp := 22 + ((i % 2 : Nat) : ℤ)
          condition := "Partly Cloudy".data
          precipitation := (Nat.repr (30 + i * 5)).data ++ ['%'] })
  ∧ (scrape_forecast_data today city days).city = city
  ∧ (scrape_forecast_data today city days).forecast_days = days := by
  refine ⟨fun h => ?_, fun h => ?_, rfl, rfl⟩
  · simp [extract_forecast_data, range_map_getElem?, h]
  · simp [scrape_forecast_data, range_map_getElem?, h]

/-- Witness for C4 (amended): the concrete entries at day index 3 of each
call site (31/25 at the record site, 28/23 with "45%" at the endpoint
site). -/
theorem forecast_formulas_amended_w :
    (extract_forecast_data 0)[3]? = some
      { date := 0 + 3
        high_temp := 28 + ((3 : Nat) : ℚ)
        low_temp := 22 + ((3 : Nat) : ℚ)
        condition := "Partly Cloudy".data
        precipitation_chance := some 30 } ∧
    (scrape_forecast_data 0 [] 7).forecast[3]? = some
      { date := 0 + 3
        high_temp := 28 + ((3 % 3 : Nat) : ℤ)
        low_temp := 22 + ((3 % 2 : Nat) : ℤ)
        condition := "Partly Cloudy".data
        precipitation := (Nat.repr (30 + 3 * 5)).data ++ ['%'] } :=
  ⟨(forecast_formulas_amended 0 [] 7 3).1 (by decide),
   (forecast_formulas_amended 0 [] 7 3).2.1 (by decide)⟩

/-- C5 (confirmed): for a fixed "today" the endpoint synthesizer is
deterministic — equal inputs give identical results — and the forecast
sequence always has exactly the requested number of entries, with the
empty sequence at a day count of 0. -/
theorem forecast_length_deterministic (today : Nat) (city : List Char)
    (days : Nat) :
    (scrape_forecast_data today city days).forecast.length = days
  ∧ (days = 0 → (scrape_forecast_data today city days).forecast = [])
  ∧ (∀ t2 c2 d2, t2 = today → c2 = city → d2 = days →
       scrape_forecast_data t2 c2 d2 = scrape_forecast_data today city days) := by
  refine ⟨?_, fun h => ?_, fun t2 c2 d2 h1 h2 h3 => by rw [h1, h2, h3]⟩
  · simp [scrape_forecast_data]
  · subst h
    simp [scrape_forecast_data]

/-- Witness for C5: 0 requested days give the empty sequence, 100 give a
sequence of length 100, and repeated calls agree. -/
theorem forecast_length_deterministic_w :
    (scrape_forecast_data 0 [] 0).forecast = [] ∧
    (scrape_forecast_data 0 [] 100).forecast.length = 100 ∧
    scrape_forecast_data 1 [] 7 = scrape_forecast_data 1 [] 7 :=
  ⟨(forecast_length_deterministic 0 [] 0).2.1 rfl,
   (forecast_length_deterministic 0 [] 100).1,
   (forecast_length_deterministic 1 [] 7).2.2 1 [] 7 rfl rfl rfl⟩

/-- C6 (counterexample): contrary to the claim, no synthesized entry at
either call site ever has `low > high` — this proves the claim's
existential statement false. -/
theorem forecast_highlow_cex :
    ¬ ∃ (today days i : Nat) (city : List Char) (e : ForecastEntry)
        (d : DailyForecast),
      ((scrape_forecast_data today city days).forecast[i]? = some e ∧
        e.high_temp < e.low_temp) ∨
      ((extract_forecast_data today)[i]? = some d ∧
        d.high_temp < d.low_temp) := by
  rintro ⟨today, days, i, city, e, d, ⟨he, hlt⟩ | ⟨hd, hlt⟩⟩
  · obtain ⟨-, rfl⟩ := scrape_forecast_entry he
    simp only at hlt
    omega
  · obtain ⟨-, rfl⟩ := forecast_record_entry hd
    simp only at hlt
    have : (22 : ℚ) + (i : ℚ) ≤ 28 + (i : ℚ) := by linarith
    linarith

/-- C6 (amended): the invariant `high >= low` is in fact guaranteed by
both synthesis formulas: every synthesized entry satisfies
`low_temp <= high_temp`. -/
theorem forecast_highlow_amended (today : Nat) (city : List Char)
    (days i : Nat) :
    (∀ e : ForecastEntry,
       (scrape_forecast_data today city days).forecast[i]? = some e →
       e.low_temp ≤ e.high_temp)
  ∧ (∀ d : DailyForecast, (extract_forecast_data today)[i]? = some d →
       d.low_temp ≤ d.high_temp) := by
  constructor
  · intro e he
    obtain ⟨-, rfl⟩ := scrape_forecast_entry he
    simp only
    omega
  · intro d hd
    obtain ⟨-, rfl⟩ := forecast_record_entry hd
    simp only
    linarith [show (0 : ℚ) ≤ (i : ℚ) from Nat.cast_nonneg i]

/-- Witness for C6 (amended): the entries at day index 0. -/
theorem forecast_highlow_amended_w :
    (22 + ((0 % 2 : Nat) : ℤ) ≤ 28 + ((0 % 3 : Nat) : ℤ)) ∧
    (22 + ((0 : Nat) : ℚ) ≤ 28 + ((0 : Nat) : ℚ)) :=
  ⟨(forecast_highlow_amended 0 [] 1 0).1
      { date := 0 + 0
        high_temp := 28 + ((0 % 3 : Nat) : ℤ)
        low_temp := 22 + ((0 % 2 : Nat) : ℤ)
        condition := "Partly Cloudy".data
        precipitation := (Nat.repr (30 + 0 * 5)).data ++ ['%'] } rfl,
   (forecast_highlow_amended 0 [] 1 0).2
      { date := 0 + 0
        high_temp := 28 + ((0 : Nat) : ℚ)
        low_temp := 22 + ((0 : Nat) : ℚ)
        condition := "Partly Cloudy".data
        precipitation_chance := some 30 } rfl⟩

/-- C8 (counterexample): the single-letter city "A" is non-empty after
trimming and consists only of letters, yet validation rejects it — a
minimum length of 2 is imposed. -/
theorem city_validation_cex :
    validate_city_name ("A".data) = false ∧
    pyStrip ("A".data) ≠ [] ∧
    (pyStrip ("A".data)).all allowedCityChar = true := by
  decide

/-- C8 (amended): city validation accepts a string exactly when its
trimmed form has at least 2 characters and consists only of letters,
whitespace characters, hyphens, apostrophes and dots. -/
theorem city_validation_amended (city : List Char) :
    validate_city_name city = true ↔
      2 ≤ (pyStrip city).length ∧ (pyStrip city).all allowedCityChar = true := by
  unfold validate_city_name
  by_cases h : city.isEmpty = true ∨ (pyStrip city).length < 2
  · rw [if_pos h]
    simp only [Bool.false_eq_true, false_iff, not_and]
    intro h2
    rcases h with he | hl
    · rw [List.isEmpty_iff] at he
      rw [he] at h2
      exact absurd h2 (by decide)
    · exact absurd h2 (by omega)
  · rw [if_neg h]
    push_neg at h
    have h2 : 2 ≤ (pyStrip city).length := h.2
    have hne : (pyStrip city).isEmpty = false := by
      rcases hs : pyStrip city with _ | ⟨a, l⟩
      · rw [hs] at h2
        simp at h2
      · rfl
    simp [hne, h2]

/-- C10 (confirmed): in every weather record built by the parser, the
country field is the fixed string "India" when the caller passed `None` or
the empty string, and the caller's country otherwise; the field always
holds a string (it is never `None` — its type is not optional). -/
theorem country_default (text : List Char) (today : Nat) (city : List Char)
    (state country : Option (List Char)) :
    ((country = none ∨ country = some []) →
       (parse_bing_weather text today city state country).country = "India".data)
  ∧ (∀ c, country = some c → c ≠ [] →
       (parse_bing_weather text today city state country).country = c) := by
  constructor
  · rintro (rfl | rfl)
    · rfl
    · rfl
  · rintro c rfl hc
    simp [parse_bing_weather, hc]

/-- Witness for C10: a `None` country and the country "USA". -/
theorem country_default_w :
    (parse_bing_weather [] 0 [] none none).country = "India".data ∧
    (parse_bing_weather [] 0 [] none (some ("USA".data))).country = "USA".data :=
  ⟨(country_default [] 0 [] none none).1 (Or.inl rfl),
   (country_default [] 0 [] none (some ("USA".data))).2 ("USA".data) rfl (by decide)⟩
